import Mathlib

/-!
Shallow embedding of the elastic thread pool in `utilities/pool_impl.go`
(the goethe concurrency runtime).  Go `int32` counters are modelled as
`Int` (every claim here is about comparisons and small increments, far
from the 32-bit boundary), the `threadState` Go map as an association
list over task ids, and the external function/error queues as opaque
handles (`Option Nat`), since the pool only tests them for presence,
emptiness and enqueues onto them.  Each loop body (worker iteration,
monitor iteration, the growth step `monitorOnce`) is embedded as a pure
step function on the pool state, parameterised by the outcome of the
blocking calls (dequeue result, queue-emptiness snapshot) that the real
code obtains from the outside world.
-/

namespace Utilities

/-- Worker state constant: `WAITING = 0` in the Go source. -/
def WAITING : Nat := 0

/-- Worker state constant: `RUNNING = 1` in the Go source. -/
def RUNNING : Nat := 1

/-- The mutable pool state of the Go struct `threadPool`.  The function
queue and error queue are opaque handles; `functionalQueue`/`errorQueue`
is `none` exactly when the Go field is `nil`. -/
structure PoolState where
  name : String
  minThreads : Int
  maxThreads : Int
  idleDecay : Nat
  functionalQueue : Option Nat
  errorQueue : Option Nat
  started : Bool
  closed : Bool
  currentThreads : Int
  threadState : List (Int × Nat)
deriving DecidableEq, Repr

/-- `newErrorinformation(tid, err)`: the error-queue entry carrying the
producing task id and the user error (modelled by its message). -/
structure ErrorInfo where
  tid : Int
  errMsg : String
deriving DecidableEq, Repr

/-- The Go reflection kind of a value returned by a user function, as far
as the worker's error scan distinguishes it: a string value, an
interface value (the kind of an `error` return), or anything else. -/
inductive GoKind where
  | stringKind
  | interfaceKind
  | otherKind
deriving DecidableEq, Repr

/-- A `reflect.Value` returned by the dynamic call of a user function,
carrying the pieces the worker inspects: its kind, its type name, its
string content (meaningful only for string kind), the results of
`IsNil()` and `CanInterface()`, and (for error values) the message the
enqueue would record. -/
structure RetVal where
  kind : GoKind
  typeName : String
  stringContent : String
  isNil : Bool
  canInterface : Bool
  errMsg : String
deriving DecidableEq, Repr

/-- Go `reflect.Value.String()`: for a value of string kind it returns
the underlying string; for any other kind it does not panic but returns
`"<T Value>"` where `T` is the value's type name. -/
def reflectValueString (v : RetVal) : String :=
  match v.kind with
  | .stringKind => v.stringContent
  | _ => "<" ++ v.typeName ++ " Value>"

/-- A non-nil value of Go interface type `error` holding an error whose
message is `msg`: the shape of a failing user function's return value. -/
def errorRetVal (msg : String) : RetVal :=
  { kind := .interfaceKind, typeName := "error", stringContent := "",
    isNil := false, canInterface := true, errMsg := msg }

/-- The per-value filter in `threadRunner`:
`!retVal.IsNil() && retVal.CanInterface() && retVal.String() == "error"`. -/
def enqueueCondition (v : RetVal) : Bool :=
  !v.isNil && v.canInterface && (reflectValueString v == "error")

/-- The error-forwarding block of `threadRunner` (pool_impl.go lines
261-275): if the error queue is non-nil and there is at least one return
value, each value passing `enqueueCondition` is wrapped with the worker's
task id and enqueued; the list of enqueued entries is returned. -/
def errorsEnqueued (tid : Int) (errQ : Option Nat) (retVals : List RetVal) :
    List ErrorInfo :=
  if errQ.isSome && retVals.length > 0 then
    (retVals.filter enqueueCondition).map (fun v => ⟨tid, v.errMsg⟩)
  else []

/-- `NewThreadPool(name, min, max, idle, fq, eq)` (pool_impl.go lines
70-96), including its exact guard order and conditions; note the third
guard in the source really is `if min < max`. -/
def NewThreadPool (name : String) (min max : Int) (idle : Nat)
    (fq errQ : Option Nat) : Except String PoolState :=
  if min < 0 then .error "minimum thread count less than zero"
  else if max < 1 then .error "maximum thread count less than one"
  else if min < max then .error "minimum is less than maximum"
  else if fq.isNone then .error "pool must have a functional queue"
  else .ok { name := name, minThreads := min, maxThreads := max,
             idleDecay := idle, functionalQueue := fq, errorQueue := errQ,
             started := false, closed := false, currentThreads := 0,
             threadState := [] }

/-- Result of `Start()`: the new pool state plus how many worker tasks
and monitor tasks were handed to `GoWithArgs`, and the returned error. -/
structure StartResult where
  state : PoolState
  workersLaunched : Nat
  monitorsLaunched : Nat
  err : Option String
deriving DecidableEq, Repr

/-- `Start()` (pool_impl.go lines 105-122): under the pool mutex it
launches `minThreads` worker tasks (the Go loop `for lcv = 0; lcv <
minThreads; lcv++` runs `minThreads` times when positive and zero times
otherwise, hence `Int.toNat`), incrementing `currentThreads` once per
launch, then launches one monitor task, sets `started`, and returns
`nil`.  The source consults neither `started` nor `closed`. -/
def Start (s : PoolState) : StartResult :=
  { state :=
      { s with
        currentThreads := s.currentThreads + s.minThreads.toNat
        started := true },
    workersLaunched := s.minThreads.toNat,
    monitorsLaunched := 1,
    err := none }

/-- `GetName()` (pool_impl.go line 124). -/
def GetName (s : PoolState) : String := s.name

/-- `GetMinThreads()` (pool_impl.go line 128). -/
def GetMinThreads (s : PoolState) : Int := s.minThreads

/-- `GetMaxThreads()` (pool_impl.go line 132). -/
def GetMaxThreads (s : PoolState) : Int := s.maxThreads

/-- `GetIdleDecayDuration()` (pool_impl.go line 136). -/
def GetIdleDecayDuration (s : PoolState) : Nat := s.idleDecay

/-- `GetCurrentThreadCount()` (pool_impl.go line 140). -/
def GetCurrentThreadCount (s : PoolState) : Int := s.currentThreads

/-- `GetFunctionQueue()` (pool_impl.go line 147). -/
def GetFunctionQueue (s : PoolState) : Option Nat := s.functionalQueue

/-- `GetErrorQueue()` (pool_impl.go line 151). -/
def GetErrorQueue (s : PoolState) : Option Nat := s.errorQueue

/-- `IsStarted()` (pool_impl.go line 98). -/
def IsStarted (s : PoolState) : Bool := s.started

/-- `IsClosed()` (pool_impl.go line 155). -/
def IsClosed (s : PoolState) : Bool := s.closed

/-- `Close()` (pool_impl.go lines 162-167): sets `closed` under the
mutex and touches nothing else. -/
def Close (s : PoolState) : PoolState := { s with closed := true }

/-- Go map assignment `threadState[tid] = st`: overwrite if the key is
present, insert otherwise. -/
def mapSet (ts : List (Int × Nat)) (tid : Int) (st : Nat) :
    List (Int × Nat) :=
  if ts.any (fun p => p.1 == tid) then
    ts.map (fun p => if p.1 == tid then (tid, st) else p)
  else (tid, st) :: ts

/-- Go `delete(threadState, tid)`. -/
def mapDelete (ts : List (Int × Nat)) (tid : Int) : List (Int × Nat) :=
  ts.filter (fun p => p.1 != tid)

/-- `changeMapState` (pool_impl.go lines 280-285). -/
def changeMapState (s : PoolState) (tid : Int) (newState : Nat) : PoolState :=
  { s with threadState := mapSet s.threadState tid newState }

/-- `deleteMapTid` (pool_impl.go lines 287-292), run by the worker's
`defer` on every exit path. -/
def deleteMapTid (s : PoolState) (tid : Int) : PoolState :=
  { s with threadState := mapDelete s.threadState tid }

/-- The outcome of `Dequeue(idleDecay)` as seen by the worker: a
descriptor whose invocation produced the given return values, the
`ErrEmptyQueue` timeout, or any other dequeue error. -/
inductive DequeueResult where
  | item (retVals : List RetVal)
  | emptyQueue
  | otherError
deriving DecidableEq, Repr

/-- One worker-loop iteration either loops again (carrying the errors it
enqueued on this pass) or returns, ending the worker task. -/
inductive WorkerOutcome where
  | looped (s : PoolState) (enqueued : List ErrorInfo)
  | exited (s : PoolState)
deriving DecidableEq, Repr

/-- The pool state an outcome leaves behind. -/
def WorkerOutcome.state : WorkerOutcome → PoolState
  | .looped s _ => s
  | .exited s => s

/-- One iteration of the worker loop in `threadRunner` (pool_impl.go
lines 216-278) for worker `tid`, given the dequeue outcome `dq`:
if `closed` is observed, decrement `currentThreads` and return (the
deferred `deleteMapTid` removes the worker's entry); otherwise mark
WAITING and dequeue.  On `ErrEmptyQueue`: if `currentThreads >
minThreads`, decrement and return, else loop.  On any other dequeue
error: return with no decrement.  On a descriptor: mark RUNNING, invoke
it, run the error-forwarding block, and loop. -/
def threadRunnerStep (s : PoolState) (tid : Int) (dq : DequeueResult) :
    WorkerOutcome :=
  if s.closed then
    .exited (deleteMapTid { s with currentThreads := s.currentThreads - 1 } tid)
  else
    let s1 := changeMapState s tid WAITING
    match dq with
    | .emptyQueue =>
        if s1.currentThreads > s1.minThreads then
          .exited (deleteMapTid
            { s1 with currentThreads := s1.currentThreads - 1 } tid)
        else
          .looped s1 []
    | .otherError => .exited (deleteMapTid s1 tid)
    | .item retVals =>
        let s2 := changeMapState s1 tid RUNNING
        .looped s2 (errorsEnqueued tid s2.errorQueue retVals)

/-- `allBusy` computed by `monitorOnce` (pool_impl.go lines 196-202):
true unless some entry of `threadState` is WAITING. -/
def allBusy (ts : List (Int × Nat)) : Bool :=
  ts.all (fun p => p.2 != WAITING)

/-- Result of one `monitorOnce` call: the new pool state and whether a
worker task was launched. -/
structure MonitorOnceResult where
  state : PoolState
  launched : Bool
deriving DecidableEq, Repr

/-- `monitorOnce()` (pool_impl.go lines 181-214), with `queueEmpty` the
snapshot `functionalQueue.IsEmpty()` returns under the pool mutex: do
nothing if the queue is empty; do nothing if `currentThreads >
maxThreads` (note: strict, the source really compares with `>`); if
every `threadState` entry is busy, launch one worker and increment
`currentThreads`; otherwise do nothing.  The source never consults
`closed` here. -/
def monitorOnce (s : PoolState) (queueEmpty : Bool) : MonitorOnceResult :=
  if queueEmpty then ⟨s, false⟩
  else if s.currentThreads > s.maxThreads then ⟨s, false⟩
  else if allBusy s.threadState then
    ⟨{ s with currentThreads := s.currentThreads + 1 }, true⟩
  else ⟨s, false⟩

/-- One iteration of the `monitor` loop (pool_impl.go lines 169-179):
either the top-of-loop `IsClosed()` check makes the monitor return, or
it waits for a queue state change and runs `monitorOnce`. -/
inductive MonitorOutcome where
  | exitLoop
  | ranOnce (r : MonitorOnceResult)
deriving DecidableEq, Repr

/-- One `monitor` loop iteration on state `s`, with `queueEmpty` the
emptiness snapshot the subsequent `monitorOnce` would observe. -/
def monitorStep (s : PoolState) (queueEmpty : Bool) : MonitorOutcome :=
  if s.closed then .exitLoop
  else .ranOnce (monitorOnce s queueEmpty)

/-- The configuration fields of the pool: name, minimum, maximum, idle
decay, function queue and error queue, in construction order. -/
def config (s : PoolState) : String × Int × Int × Nat × Option Nat × Option Nat :=
  (s.name, s.minThreads, s.maxThreads, s.idleDecay, s.functionalQueue, s.errorQueue)

/-! Concrete pool states used to instantiate the theorems. -/

/-- The pool the constructor accepts for name "p", min 2, max 2. -/
def poolTwoTwo : PoolState :=
  { name := "p", minThreads := 2, maxThreads := 2, idleDecay := 5,
    functionalQueue := some 0, errorQueue := none, started := false,
    closed := false, currentThreads := 0, threadState := [] }

/-- `poolTwoTwo` after `Start`: two workers launched, count 2. -/
def poolTwoTwoStarted : PoolState :=
  { poolTwoTwo with currentThreads := 2, started := true }

/-- `poolTwoTwoStarted` after worker 1 picked up a descriptor. -/
def poolOneBusy : PoolState :=
  { poolTwoTwoStarted with threadState := [(1, RUNNING)] }

/-- `poolOneBusy` after worker 2 also picked up a descriptor: the pool
is started, not closed, and `currentThreads = maxThreads = 2` with every
worker RUNNING. -/
def poolAllBusy : PoolState :=
  { poolTwoTwoStarted with threadState := [(2, RUNNING), (1, RUNNING)] }

/-- A started, open pool with three workers, used for the dequeue-error
exit path. -/
def poolThreeWorkers : PoolState :=
  { name := "q", minThreads := 1, maxThreads := 4, idleDecay := 5,
    functionalQueue := some 0, errorQueue := none, started := true,
    closed := false, currentThreads := 3,
    threadState := [(4, WAITING), (5, RUNNING), (6, RUNNING)] }

/-- A started, open pool with an error queue present. -/
def poolWithErrorQueue : PoolState :=
  { name := "r", minThreads := 1, maxThreads := 2, idleDecay := 5,
    functionalQueue := some 0, errorQueue := some 1, started := true,
    closed := false, currentThreads := 1, threadState := [] }

/-- A started pool, as left by a first call to `Start` with min 1. -/
def poolStartedOnce : PoolState :=
  { name := "p", minThreads := 1, maxThreads := 1, idleDecay := 5,
    functionalQueue := some 0, errorQueue := none, started := true,
    closed := false, currentThreads := 1, threadState := [(1, WAITING)] }

/-- A pool that has been closed while holding one running worker. -/
def poolClosed : PoolState :=
  { name := "p", minThreads := 1, maxThreads := 2, idleDecay := 5,
    functionalQueue := some 0, errorQueue := none, started := true,
    closed := true, currentThreads := 1, threadState := [(1, RUNNING)] }

/-- Claim C1: the claim reads `NewThreadPool` succeeds if and only if
`min ≥ 0`, `max ≥ 1`, `min ≤ max` and the function queue is present, so
in particular every configuration with `0 ≤ min < max` and a function
queue succeeds.  The source validator instead errors whenever
`min < max`: the legal configuration min 0, max 1 is rejected, while the
claim-violating configuration min 2, max 1 is accepted. -/
theorem newThreadPool_validator_inverted_c1 :
    NewThreadPool "p" 0 1 10 (some 0) (some 1) =
      .error "minimum is less than maximum" ∧
    (NewThreadPool "p" 2 1 10 (some 0) none).isOk = true := by
  constructor
  · rfl
  · rfl

/-- Claim C2: the claim reads that `monitorOnce` never launches a
worker when `currentThreads ≥ maxThreads`, so `currentThreads` never
exceeds `maxThreads` while the pool is started and open.  The source
guard is the strict `currentThreads > maxThreads`, so from the pool the
constructor accepts with min = max = 2, after `Start` and both workers
going RUNNING, a `monitorOnce` on a non-empty queue launches a third
worker and drives `currentThreads` to `maxThreads + 1`. -/
theorem monitorOnce_exceeds_max_c2 :
    NewThreadPool "p" 2 2 5 (some 0) none = .ok poolTwoTwo ∧
    (Start poolTwoTwo).state = poolTwoTwoStarted ∧
    threadRunnerStep poolTwoTwoStarted 1 (.item []) = .looped poolOneBusy [] ∧
    threadRunnerStep poolOneBusy 2 (.item []) = .looped poolAllBusy [] ∧
    poolAllBusy.started = true ∧
    poolAllBusy.closed = false ∧
    poolAllBusy.currentThreads = poolAllBusy.maxThreads ∧
    (monitorOnce poolAllBusy false).launched = true ∧
    (monitorOnce poolAllBusy false).state.currentThreads =
      poolAllBusy.maxThreads + 1 := by
  refine ⟨rfl, rfl, rfl, rfl, rfl, rfl, rfl, rfl, rfl⟩

/-- Claim C3: the claim reads that every worker exit path decrements
`currentThreads`, in particular an exit caused by a dequeue error other
than empty-queue.  On `poolThreeWorkers`, worker 4 hitting such an
error exits (its `threadState` entry is removed) but `currentThreads`
stays at 3 instead of dropping to 2. -/
theorem threadRunner_no_decrement_on_other_error_c3 :
    threadRunnerStep poolThreeWorkers 4 .otherError =
      .exited { poolThreeWorkers with
                threadState := [(5, RUNNING), (6, RUNNING)] } ∧
    (threadRunnerStep poolThreeWorkers 4 .otherError).state.currentThreads =
      poolThreeWorkers.currentThreads := by
  refine ⟨rfl, rfl⟩

/-- Claim C4: the claim reads that a worker whose descriptor returns a
non-absent error-typed value enqueues an `ErrorInfo` on the present
error queue.  The source filter compares `retVal.String()` with the
literal `"error"`, but Go reflection renders a non-nil value of
interface type `error` as `"<error Value>"`, so the filter never
matches: invoking a descriptor that returned a non-nil error on a pool
whose error queue is present enqueues nothing (the worker does keep
looping). -/
theorem worker_never_enqueues_error_c4 :
    (∀ msg, enqueueCondition (errorRetVal msg) = false) ∧
    reflectValueString (errorRetVal "boom") = "<error Value>" ∧
    (errorRetVal "boom").isNil = false ∧
    poolWithErrorQueue.errorQueue.isSome = true ∧
    threadRunnerStep poolWithErrorQueue 7 (.item [errorRetVal "boom"]) =
      .looped { poolWithErrorQueue with threadState := [(7, RUNNING)] } [] := by
  refine ⟨fun msg => rfl, rfl, rfl, rfl, rfl⟩

/-- A freshly constructed pool with min 1, max 1, used to instantiate
the `Start` theorems. -/
def poolFresh : PoolState :=
  { name := "p", minThreads := 1, maxThreads := 1, idleDecay := 5,
    functionalQueue := some 0, errorQueue := none, started := false,
    closed := false, currentThreads := 0, threadState := [] }

/-- Claim C5 counterexample: the claim reads that a second `Start()` on
an already started pool is idempotent.  On `poolStartedOnce` (started,
one worker) a second `Start` launches one more worker and one more
monitor and raises `currentThreads` from 1 to 2, so the state is
changed. -/
theorem start_not_idempotent_c5_counterexample :
    poolStartedOnce.started = true ∧
    poolStartedOnce.currentThreads = 1 ∧
    (Start poolStartedOnce).workersLaunched = 1 ∧
    (Start poolStartedOnce).monitorsLaunched = 1 ∧
    (Start poolStartedOnce).state.currentThreads = 2 ∧
    (Start poolStartedOnce).state ≠ poolStartedOnce := by
  refine ⟨rfl, rfl, rfl, rfl, rfl, ?_⟩
  decide

/-- Claim C5 as amended: on its first call, `Start` on a pool the
constructor accepted launches exactly `min` worker tasks plus one
monitor task, sets `currentThreads` to `min` and `started` to true, and
returns no error; but `Start` is not idempotent: a further call
launches `min` additional workers and another monitor, adding `min` to
`currentThreads` again. -/
theorem start_launches_min_then_again_c5 (name : String) (min max : Int)
    (idle : Nat) (fq errQ : Option Nat) (s : PoolState)
    (h : NewThreadPool name min max idle fq errQ = .ok s) :
    (Start s).err = none ∧
    (Start s).workersLaunched = min.toNat ∧
    (Start s).monitorsLaunched = 1 ∧
    (Start s).state.currentThreads = min ∧
    (Start s).state.started = true ∧
    (Start s).state.threadState = s.threadState ∧
    (Start (Start s).state).workersLaunched = min.toNat ∧
    (Start (Start s).state).monitorsLaunched = 1 ∧
    (Start (Start s).state).state.currentThreads = min + min := by
  simp only [NewThreadPool] at h
  split_ifs at h with h1 h2 h3 h4
  injection h with h
  subst h
  refine ⟨rfl, rfl, rfl, ?_, rfl, rfl, rfl, rfl, ?_⟩
  · simp [Start]
    omega
  · simp [Start]
    omega

/-- Claim C5 witness: the amended theorem applied to the concrete
configuration name "p", min 1, max 1. -/
theorem start_launches_min_then_again_c5_witness :
    (Start poolFresh).err = none ∧
    (Start poolFresh).workersLaunched = (1 : Int).toNat ∧
    (Start poolFresh).monitorsLaunched = 1 ∧
    (Start poolFresh).state.currentThreads = 1 ∧
    (Start poolFresh).state.started = true ∧
    (Start poolFresh).state.threadState = poolFresh.threadState ∧
    (Start (Start poolFresh).state).workersLaunched = (1 : Int).toNat ∧
    (Start (Start poolFresh).state).monitorsLaunched = 1 ∧
    (Start (Start poolFresh).state).state.currentThreads = 1 + 1 :=
  start_launches_min_then_again_c5 "p" 1 1 5 (some 0) none poolFresh rfl

/-- Claim C6 counterexample: the claim reads that once the pool is
closed, neither `Start` nor the growth step `monitorOnce` ever launches
a worker.  On the closed pool `poolClosed` (min 1, max 2, one RUNNING
worker), `monitorOnce` with a non-empty queue launches a worker, and
`Start` launches one worker as well. -/
theorem closed_pool_still_launches_c6_counterexample :
    poolClosed.closed = true ∧
    (monitorOnce poolClosed false).launched = true ∧
    (monitorOnce poolClosed false).state.currentThreads = 2 ∧
    (Start poolClosed).workersLaunched = 1 := by
  refine ⟨rfl, rfl, rfl, rfl⟩

/-- Claim C6 as amended: after `closed` is set, the monitor loop exits
at its next top-of-loop check without running the growth step; but
neither `Start` nor `monitorOnce` itself consults the `closed` flag, so
a `Start` call still launches `min` workers on a closed pool (which
stays closed) and an in-flight `monitorOnce` decides to launch exactly
as it would on the open pool. -/
theorem closed_monitor_loop_exits_c6 (s : PoolState) (qe : Bool)
    (h : s.closed = true) :
    monitorStep s qe = .exitLoop ∧
    (monitorOnce s qe).launched =
      (monitorOnce { s with closed := false } qe).launched ∧
    (Start s).workersLaunched = s.minThreads.toNat ∧
    (Start s).state.closed = true := by
  refine ⟨by simp [monitorStep, h], ?_, rfl, by simp [Start, h]⟩
  simp only [monitorOnce]
  split_ifs <;> rfl

/-- Claim C6 witness: the amended theorem applied to the concrete
closed pool `poolClosed`. -/
theorem closed_monitor_loop_exits_c6_witness :
    monitorStep poolClosed false = .exitLoop ∧
    (monitorOnce poolClosed false).launched =
      (monitorOnce { poolClosed with closed := false } false).launched ∧
    (Start poolClosed).workersLaunched = poolClosed.minThreads.toNat ∧
    (Start poolClosed).state.closed = true :=
  closed_monitor_loop_exits_c6 poolClosed false rfl

/-- Claim C7: on an empty-queue dequeue timeout, a worker of an open
pool decrements `currentThreads` and exits exactly when
`currentThreads > minThreads`, and otherwise loops with
`currentThreads` unchanged; hence, whenever `currentThreads` was at
least `minThreads`, the decay path never takes it below `minThreads`. -/
theorem empty_queue_decay_c7 (s : PoolState) (tid : Int)
    (h : s.closed = false) :
    ((∃ t, threadRunnerStep s tid .emptyQueue = .exited t) ↔
       s.minThreads < s.currentThreads) ∧
    (threadRunnerStep s tid .emptyQueue).state.currentThreads =
      (if s.minThreads < s.currentThreads then s.currentThreads - 1
       else s.currentThreads) ∧
    (s.minThreads ≤ s.currentThreads →
       s.minThreads ≤
         (threadRunnerStep s tid .emptyQueue).state.currentThreads) := by
  by_cases hlt : s.minThreads < s.currentThreads <;>
    simp [threadRunnerStep, h, changeMapState, deleteMapTid,
      WorkerOutcome.state, hlt]
  omega

/-- Claim C7 witness: the theorem applied to the concrete open pool
`poolThreeWorkers` and task id 9. -/
theorem empty_queue_decay_c7_witness :
    ((∃ t, threadRunnerStep poolThreeWorkers 9 .emptyQueue = .exited t) ↔
       poolThreeWorkers.minThreads < poolThreeWorkers.currentThreads) ∧
    (threadRunnerStep poolThreeWorkers 9 .emptyQueue).state.currentThreads =
      (if poolThreeWorkers.minThreads < poolThreeWorkers.currentThreads then
         poolThreeWorkers.currentThreads - 1
       else poolThreeWorkers.currentThreads) ∧
    (poolThreeWorkers.minThreads ≤ poolThreeWorkers.currentThreads →
       poolThreeWorkers.minThreads ≤
         (threadRunnerStep poolThreeWorkers 9 .emptyQueue).state.currentThreads) :=
  empty_queue_decay_c7 poolThreeWorkers 9 rfl

/-- Claim C8: one run of the growth step `monitorOnce` never decreases
`currentThreads` and increments it by at most one, never touches
`threadState` (so it never removes a worker), launches only when the
queue snapshot is non-empty and every `threadState` entry is RUNNING,
and when it does not launch it leaves the state entirely unchanged. -/
theorem monitor_growth_c8 (s : PoolState) (qe : Bool)
    (hts : ∀ p ∈ s.threadState, p.2 = WAITING ∨ p.2 = RUNNING) :
    s.currentThreads ≤ (monitorOnce s qe).state.currentThreads ∧
    (monitorOnce s qe).state.currentThreads ≤ s.currentThreads + 1 ∧
    (monitorOnce s qe).state.threadState = s.threadState ∧
    ((monitorOnce s qe).launched = true →
       qe = false ∧ ∀ p ∈ s.threadState, p.2 = RUNNING) ∧
    ((monitorOnce s qe).launched = false → (monitorOnce s qe).state = s) := by
  simp only [monitorOnce]
  split_ifs with h1 h2 h3
  · simp
  · simp
  · simp only [allBusy, List.all_eq_true, bne_iff_ne, ne_eq] at h3
    refine ⟨by simp, by simp, rfl, ?_, by simp⟩
    intro _
    refine ⟨by simpa using h1, ?_⟩
    intro p hp
    rcases hts p hp with hw | hr
    · exact absurd hw (h3 p hp)
    · exact hr
  · simp

/-- Claim C8 witness: the theorem applied to the concrete all-busy pool
`poolAllBusy` with a non-empty queue snapshot. -/
theorem monitor_growth_c8_witness :
    poolAllBusy.currentThreads ≤ (monitorOnce poolAllBusy false).state.currentThreads ∧
    (monitorOnce poolAllBusy false).state.currentThreads ≤
      poolAllBusy.currentThreads + 1 ∧
    (monitorOnce poolAllBusy false).state.threadState = poolAllBusy.threadState ∧
    ((monitorOnce poolAllBusy false).launched = true →
       false = false ∧ ∀ p ∈ poolAllBusy.threadState, p.2 = RUNNING) ∧
    ((monitorOnce poolAllBusy false).launched = false →
       (monitorOnce poolAllBusy false).state = poolAllBusy) :=
  monitor_growth_c8 poolAllBusy false (by decide)

/-- Claim C9: a worker of an open pool whose error queue is absent
enqueues nothing when it runs a descriptor, whatever values the user
function returned: it marks itself WAITING then RUNNING and keeps
looping, and the list of enqueued error records is empty. -/
theorem nil_error_queue_drops_c9 (s : PoolState) (tid : Int)
    (retVals : List RetVal) (hq : s.errorQueue = none)
    (hc : s.closed = false) :
    threadRunnerStep s tid (.item retVals) =
      .looped (changeMapState (changeMapState s tid WAITING) tid RUNNING) [] := by
  simp [threadRunnerStep, hc, changeMapState, errorsEnqueued, hq]

/-- Claim C9 witness: the theorem applied to the concrete pool
`poolThreeWorkers` (whose error queue is absent), task id 4, and a
descriptor that returned a non-nil error value. -/
theorem nil_error_queue_drops_c9_witness :
    threadRunnerStep poolThreeWorkers 4 (.item [errorRetVal "boom"]) =
      .looped
        (changeMapState (changeMapState poolThreeWorkers 4 WAITING) 4 RUNNING)
        [] :=
  nil_error_queue_drops_c9 poolThreeWorkers 4 [errorRetVal "boom"] rfl rfl

/-- Claim C10: `Close` mutates only the `closed` flag — name, min, max,
idle decay, the two queues, `started`, `currentThreads` and
`threadState` are untouched — and is idempotent; and every pool
operation (`Close`, `Start`, `monitorOnce`, any worker iteration)
preserves the configuration fields returned by `GetName`,
`GetMinThreads`, `GetMaxThreads`, `GetIdleDecayDuration`,
`GetFunctionQueue` and `GetErrorQueue`, which read those fields
directly. -/
theorem close_frame_c10 (s : PoolState) (tid : Int) (dq : DequeueResult)
    (qe : Bool) :
    (Close s).name = s.name ∧
    (Close s).minThreads = s.minThreads ∧
    (Close s).maxThreads = s.maxThreads ∧
    (Close s).idleDecay = s.idleDecay ∧
    (Close s).functionalQueue = s.functionalQueue ∧
    (Close s).errorQueue = s.errorQueue ∧
    (Close s).started = s.started ∧
    (Close s).currentThreads = s.currentThreads ∧
    (Close s).threadState = s.threadState ∧
    Close (Close s) = Close s ∧
    config (Close s) = config s ∧
    config (Start s).state = config s ∧
    config (monitorOnce s qe).state = config s ∧
    config (threadRunnerStep s tid dq).state = config s ∧
    GetName s = s.name ∧
    GetMinThreads s = s.minThreads ∧
    GetMaxThreads s = s.maxThreads ∧
    GetIdleDecayDuration s = s.idleDecay ∧
    GetFunctionQueue s = s.functionalQueue ∧
    GetErrorQueue s = s.errorQueue := by
  refine ⟨rfl, rfl, rfl, rfl, rfl, rfl, rfl, rfl, rfl, rfl, rfl, rfl, ?_, ?_,
    rfl, rfl, rfl, rfl, rfl, rfl⟩
  · simp only [monitorOnce]
    split_ifs <;> rfl
  · cases dq <;>
      simp only [threadRunnerStep, changeMapState, deleteMapTid,
        WorkerOutcome.state] <;>
      split_ifs <;> rfl

end Utilities
